import Mathlib

/-!
Shallow embedding of the aiko_chat repository (geekscape/aiko_chat).

Embedded source files:
- src/aiko_chat/chat.py: parse_recipients, generate_recipients,
  ChatServerImpl.send_message, ChatServerImpl.send_robot,
  ChatREPLImpl.command_handler
- src/aiko_chat/bot.py: ChatBotImpl.server_message_handler

Python strings are modelled as lists of characters (PyStr).  External
collaborators (the MQTT transport, the robot actor, the LLM backend) are
modelled as parameters of the server model; their observable invocations
are recorded as events.  A Python exception raised by a collaborator call
is modelled as an Option PyExn value that short-circuits the rest of the
call, exactly as an uncaught exception aborts the Python for-loop.
-/

/-- Python strings, modelled as lists of characters. -/
abbrev PyStr := List Char

/-- Coerce a Lean string literal to the PyStr model. -/
def pystr (s : String) : PyStr := s.data

/-- The ASCII whitespace characters recognised by Python str.strip and
str.split (space, tab, newline, carriage return, vertical tab, form feed). -/
def pyIsSpace (c : Char) : Bool :=
  c = ' ' || c = '\t' || c = '\n' || c = '\r' || c = '\x0b' || c = '\x0c'

/-- Python str.strip(): remove leading and trailing whitespace. -/
def pyStrip (l : PyStr) : PyStr :=
  ((l.dropWhile pyIsSpace).reverse.dropWhile pyIsSpace).reverse

/-- Python substring containment, the expression needle in haystack. -/
def isSubstring (needle haystack : PyStr) : Bool :=
  match haystack with
  | [] => needle.isEmpty
  | _ :: rest => needle.isPrefixOf haystack || isSubstring needle rest

/-- chat.py, parse_recipients (lines 97-100):
splits on commas, strips each token, and drops falsy (empty) tokens.
A falsy argument (None or the empty string) yields the empty list;
the None case is the none branch below. -/
def parse_recipients (recipients : Option PyStr) : List PyStr :=
  match recipients with
  | none => []
  | some s =>
    if s = [] then []
    else ((s.splitOn ',').map pyStrip).filter (fun t => t ≠ [])

/-- chat.py, generate_recipients (lines 92-95): joins the stripped tokens
with commas.  A falsy argument (None or the empty list) yields the empty
string; both cases are the empty-list branch below. -/
def generate_recipients (recipients : List PyStr) : PyStr :=
  if recipients = [] then []
  else [','].intercalate (recipients.map pyStrip)

/-- Observable external effects of the chat server: a transport publish,
a call of the robot actor's action entry point, and an invocation of the
LLM inference backend chain. -/
inductive Event where
  | publish (topic : PyStr) (payload : PyStr)
  | robotAction (message : PyStr)
  | llmCall (input : PyStr)
deriving DecidableEq

/-- A Python exception value (identified by its message). -/
abbrev PyExn := String

/-- True exactly for an LLM backend invocation event. -/
def isLLMCall : Event → Bool
  | Event.llmCall _ => true
  | _ => false

/-- The state of ChatServerImpl relevant to send_message, together with
the behaviour of its external collaborators.  robotConnected models
whether self.robot_server is set; robotAction and llmBackend model the
collaborator calls, which may raise (Except.error). -/
structure ServerModel where
  llm_enabled : Bool
  topic_path : PyStr
  admin : PyStr
  robotConnected : Bool
  robot_server_topic : PyStr
  robotAction : PyStr → Except PyExn Unit
  llmBackend : PyStr → Except PyExn PyStr

/-- chat.py line 77: the robot actor names used for LLM robot-command
detection. -/
def ROBOT_NAMES : List PyStr := [pystr "laika", pystr "oscar"]

/-- The outbound topic for a recipient, f-string topic_path/recipient
(chat.py line 277). -/
def recipient_topic (srv : ServerModel) (recipient : PyStr) : PyStr :=
  srv.topic_path ++ '/' :: recipient

/-- chat.py, ChatServerImpl.send_robot (lines 362-373): when a robot is
connected, a trimmed body that is a parenthesised S-expression is
published verbatim on the robot's command topic; any other body is
forwarded through the robot actor's action entry point (which may raise). -/
def send_robot (srv : ServerModel) (username recipient message : PyStr) :
    List Event × Option PyExn :=
  if srv.robotConnected then
    let sexp := pyStrip message
    if 2 ≤ sexp.length ∧ sexp.headD ' ' = '(' ∧ sexp.getLastD ' ' = ')' then
      ([Event.publish srv.robot_server_topic sexp], none)
    else
      ([Event.robotAction message],
        match srv.robotAction message with
        | Except.ok _ => none
        | Except.error e => some e)
  else ([], none)

/-- chat.py, the recipient == "llm" block of send_message (lines 280-354):
when the feature flag is off, the fixed text is published; when it is on,
the backend chain is invoked (and may raise), a robot-command response is
forwarded to the robot first, and the response is then published. -/
def handle_llm (srv : ServerModel) (username message recipient_topic_out : PyStr) :
    List Event × Option PyExn :=
  if srv.llm_enabled then
    let message_lower := message.map Char.toLower
    let is_robot_command := ROBOT_NAMES.any (fun name => isSubstring name message_lower)
    match srv.llmBackend message with
    | Except.error e => ([Event.llmCall message], some e)
    | Except.ok response =>
      if is_robot_command then
        match send_robot srv username (pystr "robot") response with
        | (evs, some e) => (Event.llmCall message :: evs, some e)
        | (evs, none) =>
          (Event.llmCall message :: evs ++ [Event.publish recipient_topic_out response], none)
      else ([Event.llmCall message, Event.publish recipient_topic_out response], none)
  else ([Event.publish recipient_topic_out (pystr "LLM is not enabled")], none)

/-- The handler part of one iteration of the send_message for-loop: the
llm, robot and yolo dispatch that follows the fan-out publish
(chat.py lines 280-360). -/
def handler_events (srv : ServerModel) (username recipient message : PyStr) :
    List Event × Option PyExn :=
  if recipient = pystr "llm" then
    handle_llm srv username message (recipient_topic srv recipient)
  else if recipient = pystr "robot" then
    send_robot srv username recipient message
  else ([], none)

/-- One iteration of the send_message for-loop (chat.py lines 276-360):
the original message is published on the recipient's outbound topic, then
the recipient's handler runs (and may raise). -/
def handle_recipient (srv : ServerModel) (username recipient message : PyStr) :
    List Event × Option PyExn :=
  (Event.publish (recipient_topic srv recipient) message ::
      (handler_events srv username recipient message).1,
    (handler_events srv username recipient message).2)

/-- The send_message for-loop over the recipients: an uncaught exception
from one iteration aborts the remaining iterations, as in Python. -/
def fanout (srv : ServerModel) (username : PyStr) (recipients : List PyStr)
    (message : PyStr) : List Event × Option PyExn :=
  match recipients with
  | [] => ([], none)
  | recipient :: rest =>
    match (handle_recipient srv username recipient message).2 with
    | some e => ((handle_recipient srv username recipient message).1, some e)
    | none =>
      ((handle_recipient srv username recipient message).1 ++
          (fanout srv username rest message).1,
        (fanout srv username rest message).2)

/-- The observable outcome of one send_message call. -/
structure SendResult where
  events : List Event
  exn : Option PyExn
  admin : PyStr
deriving DecidableEq

/-- chat.py, ChatServerImpl.send_message (lines 263-360).  The body is
stripped into command_line; when command_line is truthy and its first
space-split field (tokens[0] of command_line.split of a space) is /admin,
the call returns immediately, setting the admin share to tokens[1] when a
second field exists; otherwise the message is fanned out to the
recipients.  Python only inspects tokens when command_line is non-empty;
since the first space-split field of the empty string is empty (never
/admin), that guard and the token test collapse to one conjunction here. -/
def send_message (srv : ServerModel) (username : PyStr) (recipients : List PyStr)
    (message : PyStr) : SendResult :=
  if pyStrip message ≠ [] ∧
      ((pyStrip message).splitOn ' ').headD [] = pystr "/admin" then
    if 1 < ((pyStrip message).splitOn ' ').length then
      ⟨[], none, ((pyStrip message).splitOn ' ').getD 1 []⟩
    else ⟨[], none, srv.admin⟩
  else
    ⟨(fanout srv username recipients message).1,
      (fanout srv username recipients message).2, srv.admin⟩

/-- bot.py line 26: the bot identity marker convention. -/
def BOT_SENTINEL : PyStr := pystr " !!!!"

/-- bot.py, ChatBotImpl.server_message_handler (lines 71-78): reply with
the canned greeting when the payload mentions the botname, does not end
with the sentinel, and a chat server is connected.  The result is the
(sender, recipients, message) triple passed to send_message, or none. -/
def server_message_handler (botname : PyStr) (chat_server_connected : Bool)
    (payload_in : PyStr) : Option (PyStr × List PyStr × PyStr) :=
  if isSubstring botname payload_in then
    if !(BOT_SENTINEL.isSuffixOf payload_in) then
      if chat_server_connected then
        some (botname, [pystr "general"],
          pystr "Hello, I am " ++ botname ++ pystr " !!!!")
      else none
    else none
  else none

/-- The state of ChatREPLImpl relevant to command_handler. -/
structure ReplState where
  username : PyStr
  current_channel : PyStr
  chat_server_topic_path : PyStr
  chat_server_topic : PyStr
  chat_server_connected : Bool
deriving DecidableEq

/-- Observable effects of the REPL command handler: message-handler
(un)subscription, printed output, REPL shutdown, process termination, and
a send_message call on the discovered chat server. -/
inductive ReplEffect where
  | unsubscribe (topic : PyStr)
  | subscribe (topic : PyStr)
  | print (line : PyStr)
  | stopRepl
  | terminate
  | sendMessage (username : PyStr) (recipients : List PyStr) (message : PyStr)
deriving DecidableEq

/-- chat.py, ChatREPLImpl.command_handler (lines 136-167).  The input
line is stripped; blank lines do nothing; tokens are the space-split
fields of the stripped line and command is tokens[0].  The
:change_channel branch first sets current_channel, removes the message
handler from the old chat_server_topic, recomputes chat_server_topic from
the new channel and re-adds the handler, which yields the unsubscribe and
subscribe effects in that order. -/
def command_handler (st : ReplState) (command_line : PyStr) :
    ReplState × List ReplEffect :=
  if pyStrip command_line = [] then (st, [])
  else
    if ((pyStrip command_line).splitOn ' ').headD [] = pystr ":change_channel" ∨
        ((pyStrip command_line).splitOn ' ').headD [] = pystr ":cc" then
      if 1 < ((pyStrip command_line).splitOn ' ').length then
        ({ st with
            current_channel := ((pyStrip command_line).splitOn ' ').getD 1 [],
            chat_server_topic := st.chat_server_topic_path ++ '/' ::
              ((pyStrip command_line).splitOn ' ').getD 1 [] },
          [ReplEffect.unsubscribe st.chat_server_topic,
            ReplEffect.subscribe (st.chat_server_topic_path ++ '/' ::
              ((pyStrip command_line).splitOn ' ').getD 1 [])])
      else (st, [])
    else if ((pyStrip command_line).splitOn ' ').headD [] = pystr ":exit" ∨
        ((pyStrip command_line).splitOn ' ').headD [] = pystr ":x" then
      (st, [ReplEffect.stopRepl, ReplEffect.terminate])
    else if ((pyStrip command_line).splitOn ' ').headD [] = pystr ":help" ∨
        ((pyStrip command_line).splitOn ' ').headD [] = pystr ":?" then
      (st, [ReplEffect.print (pystr ":change_channel, :cc  Change chat channel"),
            ReplEffect.print (pystr ":exit,           :x   Exit Chat"),
            ReplEffect.print (pystr ":help,           :?   Show instructions"),
            ReplEffect.print (pystr ":list_channels,  :lc  List chat channels")])
    else if ((pyStrip command_line).splitOn ' ').headD [] = pystr ":list_channels" ∨
        ((pyStrip command_line).splitOn ' ').headD [] = pystr ":lc" then
      (st, [ReplEffect.print (pystr "general, llm, random, robot, yolo")])
    else
      if st.chat_server_connected then
        (st, [ReplEffect.sendMessage st.username [st.current_channel]
          (pyStrip command_line)])
      else (st, [])

/-- Formalisation of the specification's wording for the admin-override
claims: the whitespace-delimited tokens of a string (split on whitespace
characters, empty pieces dropped).  This is deliberately the wording of
the spec, not the code, which splits on single space characters only. -/
def whitespaceTokens (l : PyStr) : List PyStr :=
  (l.splitOnP pyIsSpace).filter (fun t => t ≠ [])

/-- A concrete server used to evaluate the model: flag off, robot
connected, collaborators that succeed. -/
def testServer : ServerModel where
  llm_enabled := false
  topic_path := pystr "aiko/host/1"
  admin := pystr "andyg"
  robotConnected := true
  robot_server_topic := pystr "robot/in"
  robotAction := fun _ => Except.ok ()
  llmBackend := fun _ => Except.ok (pystr "ok")

/-- testServer with a robot actor whose action entry point raises, as when
the downstream collaborator is unreachable. -/
def failingRobotServer : ServerModel :=
  { testServer with robotAction := fun _ => Except.error "ConnectError" }

/-- A concrete REPL state used to evaluate the model. -/
def testRepl : ReplState where
  username := pystr "alice"
  current_channel := pystr "general"
  chat_server_topic_path := pystr "aiko/host/2"
  chat_server_topic := pystr "aiko/host/2/general"
  chat_server_connected := true

/-! ### Helper lemmas about the string primitives -/

theorem dropWhile_dropWhile {α : Type} (p : α → Bool) (l : List α) :
    (l.dropWhile p).dropWhile p = l.dropWhile p := by
  induction l with
  | nil => rfl
  | cons a t ih =>
    rw [List.dropWhile_cons]
    by_cases h : p a
    · rw [if_pos h]; exact ih
    · rw [if_neg h, List.dropWhile_cons, if_neg h]

theorem head_dropWhile_false {α : Type} (p : α → Bool) (l : List α) (a : α) (t : List α)
    (h : l.dropWhile p = a :: t) : p a = false := by
  induction l with
  | nil => simp at h
  | cons b u ih =>
    rw [List.dropWhile_cons] at h
    by_cases hb : p b = true
    · rw [if_pos hb] at h; exact ih h
    · rw [if_neg hb] at h
      injection h with h1 h2
      subst h1
      simpa using hb

theorem dropWhile_eq_self_of_head {α : Type} (p : α → Bool) (l : List α)
    (h : ∀ a t, l = a :: t → p a = false) : l.dropWhile p = l := by
  cases l with
  | nil => rfl
  | cons a t => rw [List.dropWhile_cons, if_neg (by simp [h a t rfl])]

theorem dropWhile_pyStrip (l : PyStr) :
    (pyStrip l).dropWhile pyIsSpace = pyStrip l := by
  apply dropWhile_eq_self_of_head
  intro a t h
  unfold pyStrip at h
  have hhead : ((l.dropWhile pyIsSpace).reverse.dropWhile pyIsSpace).reverse.head? =
      some a := by rw [h]; rfl
  rw [List.head?_reverse] at hhead
  obtain ⟨pre, hpre⟩ :=
    List.dropWhile_suffix (l := (l.dropWhile pyIsSpace).reverse) pyIsSpace
  have h2 : ((l.dropWhile pyIsSpace).reverse).getLast? = some a := by
    rw [← hpre, List.getLast?_append, hhead]; rfl
  rw [List.getLast?_reverse] at h2
  cases hx2 : l.dropWhile pyIsSpace with
  | nil => rw [hx2] at h2; simp at h2
  | cons b u =>
    rw [hx2] at h2
    simp only [List.head?_cons, Option.some.injEq] at h2
    subst h2
    exact head_dropWhile_false pyIsSpace l b u hx2

theorem pyStrip_reverse_dropWhile (l : PyStr) :
    (pyStrip l).reverse.dropWhile pyIsSpace = (pyStrip l).reverse := by
  unfold pyStrip
  rw [List.reverse_reverse]
  exact dropWhile_dropWhile pyIsSpace _

theorem pyStrip_idem (l : PyStr) : pyStrip (pyStrip l) = pyStrip l := by
  show (((pyStrip l).dropWhile pyIsSpace).reverse.dropWhile pyIsSpace).reverse = pyStrip l
  rw [dropWhile_pyStrip, pyStrip_reverse_dropWhile, List.reverse_reverse]

theorem mem_pyStrip {c : Char} {l : PyStr} (h : c ∈ pyStrip l) : c ∈ l := by
  unfold pyStrip at h
  rw [List.mem_reverse] at h
  have h2 := (List.dropWhile_sublist (l := (l.dropWhile pyIsSpace).reverse)
    pyIsSpace).subset h
  rw [List.mem_reverse] at h2
  exact (List.dropWhile_sublist pyIsSpace).subset h2

theorem splitOnP_parts_false {α : Type} (p : α → Bool) (l : List α) :
    ∀ x ∈ l.splitOnP p, ∀ c ∈ x, p c = false := by
  induction l with
  | nil =>
    intro x hx c hc
    rw [List.splitOnP_nil] at hx
    simp only [List.mem_singleton] at hx
    subst hx
    simp at hc
  | cons a t ih =>
    intro x hx c hc
    rw [List.splitOnP_cons] at hx
    by_cases h : p a = true
    · rw [if_pos h] at hx
      rcases List.mem_cons.mp hx with rfl | hx2
      · simp at hc
      · exact ih x hx2 c hc
    · rw [if_neg h] at hx
      rcases he : t.splitOnP p with _ | ⟨y, ys⟩
      · exact absurd he (List.splitOnP_ne_nil p t)
      · rw [he, List.modifyHead_cons] at hx
        rcases List.mem_cons.mp hx with rfl | hx2
        · rcases List.mem_cons.mp hc with rfl | hc2
          · simpa using h
          · have hy : y ∈ t.splitOnP p := by
              rw [he]; exact List.mem_cons_self y ys
            exact ih y hy c hc2
        · have hx3 : x ∈ t.splitOnP p := by
            rw [he]; exact List.mem_cons.mpr (Or.inr hx2)
          exact ih x hx3 c hc

theorem mem_splitOn_comma_not {s t : PyStr} (h : t ∈ s.splitOn ',') : ',' ∉ t := by
  intro hc
  have hsp : t ∈ s.splitOnP (fun c => c == ',') := by
    simpa [List.splitOn] using h
  have hfalse := splitOnP_parts_false (fun c => c == ',') s t hsp ',' hc
  simp at hfalse

theorem parse_recipients_eq (s : PyStr) :
    parse_recipients (some s) =
      ((s.splitOn ',').map pyStrip).filter (fun t => t ≠ []) := by
  by_cases h : s = []
  · subst h; decide
  · simp [parse_recipients, h]

theorem mem_parse_recipients {s t : PyStr} (h : t ∈ parse_recipients (some s)) :
    t ≠ [] ∧ pyStrip t = t ∧ ',' ∉ t := by
  rw [parse_recipients_eq] at h
  obtain ⟨hmem, hne⟩ := List.mem_filter.mp h
  obtain ⟨raw, hraw, hstrip⟩ := List.mem_map.mp hmem
  refine ⟨by simpa using hne, ?_, ?_⟩
  · rw [← hstrip, pyStrip_idem]
  · intro hc
    have hm : ',' ∈ raw := mem_pyStrip (by rw [hstrip]; exact hc)
    exact mem_splitOn_comma_not hraw hm

theorem parse_generate_of_clean (l : List PyStr)
    (h1 : ∀ t ∈ l, t ≠ []) (h2 : ∀ t ∈ l, pyStrip t = t) (h3 : ∀ t ∈ l, ',' ∉ t) :
    parse_recipients (some (generate_recipients l)) = l := by
  by_cases hl : l = []
  · subst hl; decide
  · have hmap : l.map pyStrip = l := by
      have hcg := List.map_congr_left (f := pyStrip) (g := id) h2
      simpa using hcg
    have hgen : generate_recipients l = [','].intercalate l := by
      simp [generate_recipients, hl, hmap]
    have hsplit : (([','].intercalate l).splitOn ',') = l :=
      List.splitOn_intercalate l ',' h3 hl
    rw [hgen, parse_recipients_eq, hsplit, hmap]
    exact List.filter_eq_self.mpr (fun t ht => by simpa using h1 t ht)

/-! ### Claim theorems -/

/-- C1 counterexample.  The claim quantifies over bodies whose trimmed
form has /admin as its first whitespace-delimited token and a second
token.  The body "/admin\tcarol" satisfies that precondition (its
whitespace tokens are "/admin" and "carol"), yet send_message publishes
it to the recipient topic and leaves the admin state unchanged, because
the code splits on single space characters only, so the tab-joined body
never matches the directive. -/
theorem C1_counterexample :
    whitespaceTokens (pyStrip (pystr "/admin\tcarol")) =
      [pystr "/admin", pystr "carol"] ∧
    (send_message testServer (pystr "alice") [pystr "general"]
        (pystr "/admin\tcarol")).events =
      [Event.publish (pystr "aiko/host/1/general") (pystr "/admin\tcarol")] ∧
    (send_message testServer (pystr "alice") [pystr "general"]
        (pystr "/admin\tcarol")).admin = pystr "andyg" := by
  decide

/-- C1 (amended): for every sender and recipient list, calling
send_message with a body whose trimmed form, split on single space
characters (empty fields preserved, as Python split of a space does), has
"/admin" as its first field and at least two fields, updates the admin
state to that second field and performs no publish to any recipient
topic and raises nothing: the message is consumed entirely by the
server. -/
theorem C1_admin_directive_space_fields (srv : ServerModel) (username : PyStr)
    (recipients : List PyStr) (message : PyStr)
    (h1 : ((pyStrip message).splitOn ' ').headD [] = pystr "/admin")
    (h2 : 1 < ((pyStrip message).splitOn ' ').length) :
    send_message srv username recipients message =
      ⟨[], none, ((pyStrip message).splitOn ' ').getD 1 []⟩ := by
  have hne : pyStrip message ≠ [] := by
    intro h0
    rw [h0] at h1
    revert h1
    decide
  unfold send_message
  rw [if_pos ⟨hne, h1⟩, if_pos h2]

/-- C1 witness: the concrete admin-override send from the spec's test
properties, evaluated through the amended theorem. -/
theorem C1_witness :
    send_message testServer (pystr "alice") [pystr "general"]
        (pystr "/admin carol") =
      ⟨[], none, pystr "carol"⟩ := by
  have h := C1_admin_directive_space_fields testServer (pystr "alice")
    [pystr "general"] (pystr "/admin carol") (by decide) (by decide)
  rw [h]
  decide

/-- C2 counterexample.  The claim says a body whose first token is /admin
with no second token falls through to normal routing and is published to
each recipient topic.  On the body "/admin" with recipient list
["general"] the code publishes nothing at all: the return statement in
send_message is outside the second-token test, so a bare /admin is
consumed silently. -/
theorem C2_counterexample :
    whitespaceTokens (pyStrip (pystr "/admin")) = [pystr "/admin"] ∧
    (send_message testServer (pystr "alice") [pystr "general"]
        (pystr "/admin")).events = [] ∧
    Event.publish (pystr "aiko/host/1/general") (pystr "/admin") ∉
      (send_message testServer (pystr "alice") [pystr "general"]
        (pystr "/admin")).events ∧
    (send_message testServer (pystr "alice") [pystr "general"]
        (pystr "/admin")).admin = pystr "andyg" := by
  decide

/-- C2 (amended): a message whose trimmed body's first space-split field
equals "/admin" but which has no second field is also consumed entirely
by the server: send_message publishes nothing, raises nothing, and leaves
the admin state unchanged. -/
theorem C2_admin_directive_without_argument (srv : ServerModel) (username : PyStr)
    (recipients : List PyStr) (message : PyStr)
    (h1 : ((pyStrip message).splitOn ' ').headD [] = pystr "/admin")
    (h2 : ¬ 1 < ((pyStrip message).splitOn ' ').length) :
    send_message srv username recipients message = ⟨[], none, srv.admin⟩ := by
  have hne : pyStrip message ≠ [] := by
    intro h0
    rw [h0] at h1
    revert h1
    decide
  unfold send_message
  rw [if_pos ⟨hne, h1⟩, if_neg h2]

/-- C2 witness: the bare "/admin" body, evaluated through the amended
theorem. -/
theorem C2_witness :
    send_message testServer (pystr "alice") [pystr "general"] (pystr "/admin") =
      ⟨[], none, pystr "andyg"⟩ := by
  have h := C2_admin_directive_without_argument testServer (pystr "alice")
    [pystr "general"] (pystr "/admin") (by decide) (by decide)
  rw [h]
  decide

/-- C3: evaluation of the code at the failing input.  With the robot
actor's action entry point raising (collaborator unreachable) and
recipient list ["robot", "general"], the for-loop of send_message aborts
at the robot recipient: the exception propagates out of the call and the
original message is never published on the general topic, contrary to
the per-recipient failure isolation the specification requires. -/
theorem C3_fanout_aborts_on_handler_exception :
    (send_message failingRobotServer (pystr "alice")
        [pystr "robot", pystr "general"] (pystr "hello")).events =
      [Event.publish (pystr "aiko/host/1/robot") (pystr "hello"),
        Event.robotAction (pystr "hello")] ∧
    (send_message failingRobotServer (pystr "alice")
        [pystr "robot", pystr "general"] (pystr "hello")).exn =
      some "ConnectError" ∧
    Event.publish (pystr "aiko/host/1/general") (pystr "hello") ∉
      (send_message failingRobotServer (pystr "alice")
        [pystr "robot", pystr "general"] (pystr "hello")).events := by
  decide

/-- C4 counterexample.  The claim says the bot never responds when the
body contains the sentinel marker, regardless of mention.  The payload
"@@bot !!!! hi" contains both the bot identity "@@bot" and the sentinel
" !!!!", yet the handler does reply, because the code only suppresses
payloads that END with the sentinel. -/
theorem C4_counterexample :
    isSubstring (pystr "@@bot") (pystr "@@bot !!!! hi") = true ∧
    isSubstring BOT_SENTINEL (pystr "@@bot !!!! hi") = true ∧
    server_message_handler (pystr "@@bot") true (pystr "@@bot !!!! hi") ≠ none := by
  decide

/-- C4 (amended): with a chat server connected, the bot responds exactly
when the body contains the bot's identity token as a substring and the
body does not END with the sentinel reply marker " !!!!"; a body ending
with the sentinel is never answered, regardless of mention. -/
theorem C4_bot_loop_guard (botname payload_in : PyStr) :
    server_message_handler botname true payload_in ≠ none ↔
      (isSubstring botname payload_in = true ∧
        BOT_SENTINEL.isSuffixOf payload_in = false) := by
  by_cases h1 : isSubstring botname payload_in = true <;>
    by_cases h2 : BOT_SENTINEL.isSuffixOf payload_in = true <;>
      simp [server_message_handler, h1, h2, Bool.not_eq_true] at *

/-- C5: parse_recipients splits its input on commas, strips each token,
contains no empty tokens, preserves the order and duplicates of the
remaining tokens (it is exactly the strip of the comma-split tokens with
the blank ones removed), has length equal to the number of non-blank
comma-separated tokens, and maps both the None input and the empty string
to the empty list. -/
theorem C5_parse_recipients_spec (s : PyStr) :
    (∀ t ∈ parse_recipients (some s), t ≠ [] ∧ pyStrip t = t) ∧
    (parse_recipients (some s)).length =
      ((s.splitOn ',').filter (fun t => pyStrip t ≠ [])).length ∧
    parse_recipients (some s) =
      ((s.splitOn ',').map pyStrip).filter (fun t => t ≠ []) ∧
    parse_recipients none = ([] : List PyStr) ∧
    parse_recipients (some ([] : PyStr)) = [] := by
  refine ⟨fun t ht => ⟨(mem_parse_recipients ht).1, (mem_parse_recipients ht).2.1⟩,
    ?_, parse_recipients_eq s, rfl, by decide⟩
  rw [parse_recipients_eq, List.filter_map, List.length_map]
  rfl

/-- C5 witness: evaluation on the concrete input " a ,, b". -/
theorem C5_witness :
    pystr "a" ∈ parse_recipients (some (pystr " a ,, b")) ∧
    (pystr "a" ≠ [] ∧ pyStrip (pystr "a") = pystr "a") ∧
    (parse_recipients (some (pystr " a ,, b"))).length =
      (((pystr " a ,, b").splitOn ',').filter (fun t => pyStrip t ≠ [])).length := by
  exact ⟨by decide,
    (C5_parse_recipients_spec (pystr " a ,, b")).1 (pystr "a") (by decide),
    (C5_parse_recipients_spec (pystr " a ,, b")).2.1⟩

/-- C10: re-parsing the formatted form of a parse is the identity on the
parse result, for every input (including None): generate_recipients
composed between two parse_recipients calls reproduces the first parse. -/
theorem C10_parse_generate_parse (s : Option PyStr) :
    parse_recipients (some (generate_recipients (parse_recipients s))) =
      parse_recipients s := by
  cases s with
  | none => decide
  | some s =>
    exact parse_generate_of_clean _
      (fun t ht => (mem_parse_recipients ht).1)
      (fun t ht => (mem_parse_recipients ht).2.1)
      (fun t ht => (mem_parse_recipients ht).2.2)

theorem sexp_length_cond (l : PyStr) (h1 : l.headD ' ' = '(')
    (h2 : l.getLastD ' ' = ')') (hne : l ≠ []) : 2 ≤ l.length := by
  match l with
  | [] => exact absurd rfl hne
  | [a] =>
    simp only [List.headD] at h1
    simp only [List.getLastD] at h2
    rw [h1] at h2
    exact absurd h2 (by decide)
  | a :: b :: u => simp [List.length_cons]

/-- C6: with a robot collaborator connected, a message whose trimmed body
begins with an opening parenthesis and ends with a closing one is
published verbatim (trimmed) on the robot's command topic as a structured
command, and any other body is instead forwarded as free text through the
robot collaborator's action entry point. -/
theorem C6_send_robot_dispatch (srv : ServerModel) (username message : PyStr)
    (hc : srv.robotConnected = true) :
    ((pyStrip message ≠ [] ∧ (pyStrip message).headD ' ' = '(' ∧
        (pyStrip message).getLastD ' ' = ')') →
      send_robot srv username (pystr "robot") message =
        ([Event.publish srv.robot_server_topic (pyStrip message)], none)) ∧
    (¬(pyStrip message ≠ [] ∧ (pyStrip message).headD ' ' = '(' ∧
        (pyStrip message).getLastD ' ' = ')') →
      (send_robot srv username (pystr "robot") message).1 =
        [Event.robotAction message]) := by
  constructor
  · rintro ⟨hne, h1, h2⟩
    have hlen := sexp_length_cond _ h1 h2 hne
    simp only [send_robot]
    rw [if_pos hc, if_pos ⟨hlen, h1, h2⟩]
  · intro h
    have hcond : ¬(2 ≤ (pyStrip message).length ∧
        (pyStrip message).headD ' ' = '(' ∧
        (pyStrip message).getLastD ' ' = ')') := by
      rintro ⟨hl, h1, h2⟩
      refine h ⟨?_, h1, h2⟩
      intro h0
      rw [h0] at hl
      simp at hl
    simp only [send_robot]
    rw [if_pos hc, if_neg hcond]

/-- C6 witness: the body "(action sit)" takes the structured path, as the
spec's test property requires. -/
theorem C6_witness :
    send_robot testServer (pystr "alice") (pystr "robot") (pystr "(action sit)") =
      ([Event.publish (pystr "robot/in") (pystr "(action sit)")], none) := by
  have h := (C6_send_robot_dispatch testServer (pystr "alice")
    (pystr "(action sit)") rfl).1 ⟨by decide, by decide, by decide⟩
  rw [h]
  decide

theorem handler_events_no_llmCall (srv : ServerModel)
    (username recipient message : PyStr) (h : srv.llm_enabled = false) :
    ∀ e ∈ (handler_events srv username recipient message).1,
      isLLMCall e = false := by
  intro e he
  unfold handler_events at he
  by_cases hr1 : recipient = pystr "llm"
  · rw [if_pos hr1] at he
    unfold handle_llm at he
    rw [h] at he
    simp at he
    subst he
    rfl
  · rw [if_neg hr1] at he
    by_cases hr2 : recipient = pystr "robot"
    · rw [if_pos hr2] at he
      unfold send_robot at he
      by_cases hc : srv.robotConnected = true
      · rw [if_pos hc] at he
        by_cases hs : (2 ≤ (pyStrip message).length ∧
            (pyStrip message).headD ' ' = '(' ∧
            (pyStrip message).getLastD ' ' = ')')
        · rw [if_pos hs] at he
          simp at he
          subst he
          rfl
        · rw [if_neg hs] at he
          simp at he
          subst he
          rfl
      · rw [if_neg hc] at he
        simp at he
    · rw [if_neg hr2] at he
      simp at he

theorem handle_recipient_no_llmCall (srv : ServerModel)
    (username recipient message : PyStr) (h : srv.llm_enabled = false) :
    ∀ e ∈ (handle_recipient srv username recipient message).1,
      isLLMCall e = false := by
  intro e he
  simp only [handle_recipient] at he
  rcases List.mem_cons.mp he with rfl | he2
  · rfl
  · exact handler_events_no_llmCall srv username recipient message h e he2

theorem fanout_no_llmCall (srv : ServerModel) (username : PyStr)
    (recipients : List PyStr) (message : PyStr) (h : srv.llm_enabled = false) :
    ∀ e ∈ (fanout srv username recipients message).1, isLLMCall e = false := by
  induction recipients with
  | nil => intro e he; simp [fanout] at he
  | cons r rest ih =>
    intro e he
    simp only [fanout] at he
    cases hx : (handle_recipient srv username r message).2 with
    | some ex =>
      rw [hx] at he
      dsimp only at he
      exact handle_recipient_no_llmCall srv username r message h e he
    | none =>
      rw [hx] at he
      dsimp only at he
      rcases List.mem_append.mp he with hm1 | hm2
      · exact handle_recipient_no_llmCall srv username r message h e hm1
      · exact ih e hm2

/-- C7: when the LLM feature flag is disabled at server start, the
per-recipient handling of the llm recipient publishes the original
message and then the fixed text "LLM is not enabled" on the llm outbound
topic, raising nothing; and no event of any send_message call with the
flag disabled is an invocation of an inference backend. -/
theorem C7_llm_disabled (srv : ServerModel) (username message : PyStr)
    (recipients : List PyStr) (h : srv.llm_enabled = false) :
    handle_recipient srv username (pystr "llm") message =
      ([Event.publish (recipient_topic srv (pystr "llm")) message,
        Event.publish (recipient_topic srv (pystr "llm"))
          (pystr "LLM is not enabled")], none) ∧
    ∀ e ∈ (send_message srv username recipients message).events,
      isLLMCall e = false := by
  constructor
  · simp [handle_recipient, handler_events, handle_llm, h]
  · intro e he
    unfold send_message at he
    split at he
    · split at he <;> simp at he
    · exact fanout_no_llmCall srv username recipients message h e he

/-- C7 witness: the llm recipient handling of a concrete message on the
disabled test server, evaluated through the theorem. -/
theorem C7_witness :
    handle_recipient testServer (pystr "alice") (pystr "llm") (pystr "hi") =
      ([Event.publish (pystr "aiko/host/1/llm") (pystr "hi"),
        Event.publish (pystr "aiko/host/1/llm") (pystr "LLM is not enabled")],
        none) := by
  rw [(C7_llm_disabled testServer (pystr "alice") (pystr "hi") [] rfl).1]
  decide

/-- C8: for every recipient of every send_message call, the original
message is published on that recipient's outbound topic before any
handler-derived event for the same recipient (the per-recipient event
list always starts with that publish); and routing "hello" to
["general", "robot"] publishes "hello" on the general and robot outbound
topics in that order and then invokes the robot handler with body
"hello" in free-text form. -/
theorem C8_original_before_handler :
    (∀ (srv : ServerModel) (username recipient message : PyStr),
      ∃ tail, (handle_recipient srv username recipient message).1 =
        Event.publish (recipient_topic srv recipient) message :: tail) ∧
    (send_message testServer (pystr "alice") [pystr "general", pystr "robot"]
        (pystr "hello")).events =
      [Event.publish (pystr "aiko/host/1/general") (pystr "hello"),
        Event.publish (pystr "aiko/host/1/robot") (pystr "hello"),
        Event.robotAction (pystr "hello")] := by
  exact ⟨fun srv username recipient message =>
    ⟨(handler_events srv username recipient message).1, rfl⟩, by decide⟩

/-- C9: in the REPL command handler, a change-channel command (long or
short form) with a name argument produces exactly one unsubscribe of the
old channel topic followed by exactly one subscribe of the new channel
topic, in that order, and sets the current channel to the given name;
with the name omitted the command is a no-op that leaves the state
unchanged and produces no effect. -/
theorem C9_change_channel (st : ReplState) (line : PyStr)
    (h : ((pyStrip line).splitOn ' ').headD [] = pystr ":change_channel" ∨
        ((pyStrip line).splitOn ' ').headD [] = pystr ":cc") :
    (1 < ((pyStrip line).splitOn ' ').length →
      command_handler st line =
        ({ st with
            current_channel := ((pyStrip line).splitOn ' ').getD 1 [],
            chat_server_topic := st.chat_server_topic_path ++ '/' ::
              ((pyStrip line).splitOn ' ').getD 1 [] },
          [ReplEffect.unsubscribe st.chat_server_topic,
            ReplEffect.subscribe (st.chat_server_topic_path ++ '/' ::
              ((pyStrip line).splitOn ' ').getD 1 [])])) ∧
    (¬ 1 < ((pyStrip line).splitOn ' ').length →
      command_handler st line = (st, [])) := by
  have hne : pyStrip line ≠ [] := by
    intro h0
    rw [h0] at h
    revert h
    decide
  constructor
  · intro hlen
    unfold command_handler
    rw [if_neg hne, if_pos h, if_pos hlen]
  · intro hlen
    unfold command_handler
    rw [if_neg hne, if_pos h, if_neg hlen]

/-- C9 witness: changing to channel random unsubscribes the old general
topic, subscribes the random topic, and sets the channel; a bare change
command is a no-op. -/
theorem C9_witness :
    command_handler testRepl (pystr ":cc random") =
      ({ testRepl with
          current_channel := pystr "random",
          chat_server_topic := pystr "aiko/host/2/random" },
        [ReplEffect.unsubscribe (pystr "aiko/host/2/general"),
          ReplEffect.subscribe (pystr "aiko/host/2/random")]) ∧
    command_handler testRepl (pystr ":cc") = (testRepl, []) := by
  constructor
  · have h := (C9_change_channel testRepl (pystr ":cc random")
      (Or.inr (by decide))).1 (by decide)
    rw [h]
    decide
  · exact (C9_change_channel testRepl (pystr ":cc") (Or.inr (by decide))).2
      (by decide)
